import Mathlib

/-!
Verification of the variance-chart layout engine and data parser.

The numeric type `number` of the source is modelled by `ℚ`; `Math.floor` by
`jsFloor`; `Math.sin (θ * π / 180)` is abstracted as an explicit function
argument `msin : ℚ → ℚ` (the source only applies `Math.sin` to
`|rotation| * π / 180`, so `msin` receives the absolute rotation in degrees).
Optional record fields are modelled with `Option`.
-/

/-- JS `Math.floor` on the rational model of `number`. -/
def jsFloor (q : ℚ) : ℚ := (⌊q⌋ : ℤ)

/-- Truncation toward zero, as used by the JS `%` remainder. -/
def jsTrunc (q : ℚ) : ℚ := if q < 0 then ((⌈q⌉ : ℤ) : ℚ) else ((⌊q⌋ : ℤ) : ℚ)

/-- JS remainder `a % b` (sign follows the dividend). -/
def jsMod (a b : ℚ) : ℚ := a - b * jsTrunc (a / b)

/-- `Rect` from layoutEngine: axis-aligned region in viewport coordinates. -/
structure Rect where
  x : ℚ
  y : ℚ
  width : ℚ
  height : ℚ
deriving DecidableEq

/-- `ChartLayout` from layoutEngine: optional peripheral areas plus the chart area. -/
structure ChartLayout where
  titleArea : Option Rect := none
  legendArea : Option Rect := none
  commentBoxArea : Option Rect := none
  chartArea : Rect
deriving DecidableEq

/-- `Margins` from layoutEngine. -/
structure Margins where
  top : ℚ
  right : ℚ
  bottom : ℚ
  left : ℚ
deriving DecidableEq

/-- `LayoutDimensions` from layoutEngine. -/
structure LayoutDimensions where
  width : ℚ
  height : ℚ
  margin : Margins
  layout : Option ChartLayout := none
deriving DecidableEq

/-- The legend position union type `"top" | "bottom" | "left" | "right"`. -/
inductive LegendPosition where
  | top
  | bottom
  | left
  | right
deriving DecidableEq

/-- `LayoutConfig` from layoutEngine, with the nested objects flattened. -/
structure LayoutConfig where
  titleShow : Bool
  legendShow : Bool
  legendPosition : LegendPosition
  commentBoxShow : Bool
  categoriesShow : Bool
  categoriesRotation : ℚ
  categoriesMaxWidth : ℚ
  categoriesFontSize : ℚ
  hasComments : Bool
  chartType : String
  breakpoint : String
deriving DecidableEq

/-- The initial `available` rect of `calculateLayout`: the full viewport. -/
def initialAvailable (width height : ℚ) : Rect :=
  { x := 0, y := 0, width := width, height := height }

/-- Step 1 of `calculateLayout`: the title carves a 30px strip from the top.
Returns the recorded `titleArea` (if any) and the shrunken available rect. -/
def carveTitle (c : LayoutConfig) (a : Rect) : Option Rect × Rect :=
  if c.titleShow then
    (some { x := a.x, y := a.y, width := a.width, height := 30 },
     { a with y := a.y + 30, height := a.height - 30 })
  else (none, a)

/-- Step 2 of `calculateLayout`: the legend carves a 30px strip (top/bottom)
or an 80px strip (left/right) from the corresponding edge. -/
def carveLegend (c : LayoutConfig) (a : Rect) : Option Rect × Rect :=
  if c.legendShow then
    match c.legendPosition with
    | .top =>
        (some { x := a.x, y := a.y, width := a.width, height := 30 },
         { a with y := a.y + 30, height := a.height - 30 })
    | .bottom =>
        (some { x := a.x, y := a.y + a.height - 30, width := a.width, height := 30 },
         { a with height := a.height - 30 })
    | .left =>
        (some { x := a.x, y := a.y, width := 80, height := a.height },
         { a with x := a.x + 80, width := a.width - 80 })
    | .right =>
        (some { x := a.x + a.width - 80, y := a.y, width := 80, height := a.height },
         { a with width := a.width - 80 })
  else (none, a)

/-- Step 3 of `calculateLayout`: the comment box carves a 220px strip from the
right edge, only when it is shown and the data has comments. -/
def carveCommentBox (c : LayoutConfig) (a : Rect) : Option Rect × Rect :=
  if c.commentBoxShow ∧ c.hasComments then
    (some { x := a.x + a.width - 220, y := a.y, width := 220, height := a.height },
     { a with width := a.width - 220 })
  else (none, a)

/-- The available rect after the title step. -/
def availableAfterTitle (width height : ℚ) (c : LayoutConfig) : Rect :=
  (carveTitle c (initialAvailable width height)).2

/-- The available rect after the title and legend steps. -/
def availableAfterLegend (width height : ℚ) (c : LayoutConfig) : Rect :=
  (carveLegend c (availableAfterTitle width height c)).2

/-- The available rect after all three peripheral steps; it becomes `chartArea`. -/
def availableAfterPeripherals (width height : ℚ) (c : LayoutConfig) : Rect :=
  (carveCommentBox c (availableAfterLegend width height c)).2

/-- The `ChartLayout` record assembled by `calculateLayout` (non-small branch). -/
def peripheralLayout (width height : ℚ) (c : LayoutConfig) : ChartLayout :=
  { titleArea := (carveTitle c (initialAvailable width height)).1,
    legendArea := (carveLegend c (availableAfterTitle width height c)).1,
    commentBoxArea := (carveCommentBox c (availableAfterLegend width height c)).1,
    chartArea := availableAfterPeripherals width height c }

/-- The `axisBottom` value of `calculateLayout` before the waterfall addition. -/
def axisBottomBase (c : LayoutConfig) (msin : ℚ → ℚ) : ℚ :=
  if c.categoriesShow then
    if |c.categoriesRotation| = 0 then 30 + c.categoriesFontSize * 2
    else 30 + min c.categoriesMaxWidth 150 * msin |c.categoriesRotation| + 10
  else 60

/-- The `axisBottom` value of `calculateLayout` including the waterfall addition. -/
def axisBottomValue (c : LayoutConfig) (msin : ℚ → ℚ) : ℚ :=
  axisBottomBase c msin + (if c.chartType = "waterfall" then 20 else 0)

/-- Step 4 of `calculateLayout`: the axis margins, after the medium-breakpoint
adjustment and the lollipop left override. -/
def axisMargins (c : LayoutConfig) (msin : ℚ → ℚ) : Margins :=
  let ab := axisBottomValue c msin
  let m : Margins :=
    if c.breakpoint = "medium" then
      { top := 20, right := 30, bottom := min ab 60, left := 50 }
    else
      { top := 30, right := 30, bottom := ab, left := 60 }
  if c.chartType = "lollipop" then { m with left := 100 } else m

/-- The `finalMargins` of `calculateLayout` before clamping: peripheral offsets
plus axis margins. -/
def preClampMargins (width height : ℚ) (c : LayoutConfig) (msin : ℚ → ℚ) : Margins :=
  let a := availableAfterPeripherals width height c
  let am := axisMargins c msin
  { top := a.y + am.top,
    right := (width - (a.x + a.width)) + am.right,
    bottom := (height - (a.y + a.height)) + am.bottom,
    left := a.x + am.left }

/-- The horizontal clamp of `calculateLayout`: if `left + right` exceeds
`width - 50`, scale both down proportionally and floor. -/
def clampHorizontal (width : ℚ) (m : Margins) : Margins :=
  if m.left + m.right > width - 50 then
    { m with
      left := jsFloor (m.left * ((width - 50) / (m.left + m.right))),
      right := jsFloor (m.right * ((width - 50) / (m.left + m.right))) }
  else m

/-- The vertical clamp of `calculateLayout`: if `top + bottom` exceeds
`height - 30`, scale both down proportionally and floor. -/
def clampVertical (height : ℚ) (m : Margins) : Margins :=
  if m.top + m.bottom > height - 30 then
    { m with
      top := jsFloor (m.top * ((height - 30) / (m.top + m.bottom))),
      bottom := jsFloor (m.bottom * ((height - 30) / (m.top + m.bottom))) }
  else m

/-- Both clamping steps of `calculateLayout`, in source order. -/
def clampMargins (width height : ℚ) (m : Margins) : Margins :=
  clampVertical height (clampHorizontal width m)

/-- `calculateLayout` from layoutEngine. -/
def calculateLayout (width height : ℚ) (c : LayoutConfig) (msin : ℚ → ℚ) :
    LayoutDimensions :=
  if c.breakpoint = "small" then
    { width := width, height := height,
      margin := { top := 5, right := 15, bottom := 25, left := 35 },
      layout := some { chartArea := initialAvailable width height } }
  else
    { width := width, height := height,
      margin := clampMargins width height (preClampMargins width height c msin),
      layout := some (peripheralLayout width height c) }

/-- The record returned by `getChartArea`. -/
structure ChartAreaSize where
  chartWidth : ℚ
  chartHeight : ℚ
deriving DecidableEq

/-- `getChartArea` from layoutEngine. -/
def getChartArea (d : LayoutDimensions) : ChartAreaSize :=
  { chartWidth := d.width - d.margin.left - d.margin.right,
    chartHeight := d.height - d.margin.top - d.margin.bottom }

/-- The record returned by `getCommentBoxPosition`. -/
structure CommentBoxPos where
  x : ℚ
  y : ℚ
  boxWidth : ℚ
  boxHeight : ℚ
deriving DecidableEq

/-- `getCommentBoxPosition` from layoutEngine.  The source's return type allows
`null` but the body always returns a record, defaulting the comment allocation
to 220 when no `commentBoxArea` is present. -/
def getCommentBoxPosition (d : LayoutDimensions) : Option CommentBoxPos :=
  let ca := getChartArea d
  let commentAllocation : ℚ :=
    match d.layout with
    | some l =>
      match l.commentBoxArea with
      | some r => r.width
      | none => 220
    | none => 220
  some { x := ca.chartWidth + 10, y := 0,
         boxWidth := max 80 (commentAllocation - 30),
         boxHeight := ca.chartHeight }

/-- `getSmallMultiplesViewport` from layoutEngine: the same three carving steps
as `calculateLayout`, without recording areas and without axis margins. -/
def getSmallMultiplesViewport (totalWidth totalHeight : ℚ) (c : LayoutConfig) : Rect :=
  let a0 : Rect := { x := 0, y := 0, width := totalWidth, height := totalHeight }
  let a1 : Rect := if c.titleShow then { a0 with y := a0.y + 30, height := a0.height - 30 } else a0
  let a2 : Rect :=
    if c.legendShow then
      match c.legendPosition with
      | .top => { a1 with y := a1.y + 30, height := a1.height - 30 }
      | .bottom => { a1 with height := a1.height - 30 }
      | .left => { a1 with x := a1.x + 80, width := a1.width - 80 }
      | .right => { a1 with width := a1.width - 80 }
    else a1
  if c.commentBoxShow ∧ c.hasComments then { a2 with width := a2.width - 220 } else a2

/-- `SmallMultiplesConfig` from layoutEngine. -/
structure SmallMultiplesConfig where
  columns : ℚ
  spacing : ℚ
  showHeaders : Bool
  categoryRotation : ℚ
  categoryMaxWidth : ℚ
  categoryFontSize : ℚ
deriving DecidableEq

/-- `SmallMultiplesGrid` from layoutEngine. -/
structure SmallMultiplesGrid where
  cols : ℚ
  rows : ℚ
  cellWidth : ℚ
  cellHeight : ℚ
deriving DecidableEq

/-- `SmallMultiplesCellLayout` from layoutEngine. -/
structure SmallMultiplesCellLayout where
  x : ℚ
  y : ℚ
  margin : Margins
  headerHeight : ℚ
  chartWidth : ℚ
  chartHeight : ℚ
deriving DecidableEq

/-- `calculateCellLayout` from layoutEngine. -/
def calculateCellLayout (grid : SmallMultiplesGrid) (cellIndex : ℚ)
    (c : SmallMultiplesConfig) (msin : ℚ → ℚ) : SmallMultiplesCellLayout :=
  let col := jsMod cellIndex grid.cols
  let row := jsFloor (cellIndex / grid.cols)
  let x := c.spacing + col * (grid.cellWidth + c.spacing)
  let y := c.spacing + row * (grid.cellHeight + c.spacing)
  let headerHeight : ℚ := if c.showHeaders then 20 else 0
  let rot := |c.categoryRotation|
  let bottomMarginRaw : ℚ :=
    if rot = 0 then 20 + c.categoryFontSize
    else 15 + min c.categoryMaxWidth 100 * msin rot
  let availHeight := grid.cellHeight - headerHeight
  let sidePad := min 45 (jsFloor (grid.cellWidth * (15 / 100)))
  let topMargin : ℚ := 10
  let maxBottomMargin := jsFloor (availHeight * (4 / 10))
  let bottomMargin := min bottomMarginRaw maxBottomMargin
  let margin : Margins := { top := topMargin, right := sidePad, bottom := bottomMargin, left := sidePad }
  { x := x, y := y, margin := margin, headerHeight := headerHeight,
    chartWidth := grid.cellWidth - margin.left - margin.right,
    chartHeight := availHeight - margin.top - margin.bottom }

/-- `TooltipField` from dataParser. -/
structure TooltipField where
  displayName : String
  value : String
deriving DecidableEq

/-- `DataPoint` from dataParser. -/
structure DataPoint where
  category : String
  group : String
  actual : ℚ
  budget : ℚ
  previousYear : ℚ
  forecast : ℚ
  comment : String
  varianceToBudget : ℚ
  varianceToBudgetPct : ℚ
  varianceToPY : ℚ
  varianceToPYPct : ℚ
  varianceToFC : ℚ
  varianceToFCPct : ℚ
  tooltipFields : Option (List TooltipField) := none
  index : ℚ
deriving DecidableEq

/-- The `totals` record of `ParsedData`. -/
structure Totals where
  actual : ℚ
  budget : ℚ
  previousYear : ℚ
  forecast : ℚ
deriving DecidableEq

/-- `ParsedData` from dataParser. -/
structure ParsedData where
  dataPoints : List DataPoint
  groups : List String
  hasActual : Bool
  hasBudget : Bool
  hasPreviousYear : Bool
  hasForecast : Bool
  hasGroups : Bool
  hasComments : Bool
  totals : Totals
  maxValue : ℚ
  minValue : ℚ
deriving DecidableEq

/-- `ComparisonType` from dataParser. -/
inductive ComparisonType where
  | budget
  | previousYear
  | forecast
deriving DecidableEq

/-- `calculatePercentage` from dataParser: zero-base guard, otherwise
`(variance / |base|) * 100`. -/
def calculatePercentage (variance base : ℚ) : ℚ :=
  if base = 0 then 0 else variance / |base| * 100

/-- The per-row `DataPoint` construction from the loop body of `parseDataView`
(dataParser lines 120-167), given the already-coerced cell values of row `i`. -/
def parseRowDataPoint (category group comment : String)
    (tooltipFields : List TooltipField)
    (actual budget previousYear forecast index : ℚ) : DataPoint :=
  { category := category, group := group,
    actual := actual, budget := budget,
    previousYear := previousYear, forecast := forecast,
    comment := comment,
    varianceToBudget := actual - budget,
    varianceToBudgetPct := calculatePercentage (actual - budget) budget,
    varianceToPY := actual - previousYear,
    varianceToPYPct := calculatePercentage (actual - previousYear) previousYear,
    varianceToFC := actual - forecast,
    varianceToFCPct := calculatePercentage (actual - forecast) forecast,
    tooltipFields := some tooltipFields,
    index := index }

/-- `getVariance` from dataParser. -/
def getVariance (d : DataPoint) : ComparisonType → ℚ
  | .budget => d.varianceToBudget
  | .previousYear => d.varianceToPY
  | .forecast => d.varianceToFC

/-- `getVariancePct` from dataParser. -/
def getVariancePct (d : DataPoint) : ComparisonType → ℚ
  | .budget => d.varianceToBudgetPct
  | .previousYear => d.varianceToPYPct
  | .forecast => d.varianceToFCPct

/-- `getComparisonValue` from dataParser. -/
def getComparisonValue (d : DataPoint) : ComparisonType → ℚ
  | .budget => d.budget
  | .previousYear => d.previousYear
  | .forecast => d.forecast

/-- `TopNOptions` from dataParser.  The `count` setting is an integral
count of rows to keep, modelled as `ℕ`. -/
structure TopNOptions where
  enable : Bool
  count : ℕ
  sortBy : String
  sortDirection : String
  showOthers : Bool
  othersLabel : String
  comparisonType : ComparisonType
deriving DecidableEq

/-- The comparator passed to `sort` inside `applyTopN`.  `localeCompare` is the
(locale-dependent) JS string comparison, abstracted as a function argument. -/
def topNCompareValue (localeCompare : String → String → ℚ) (o : TopNOptions)
    (a b : DataPoint) : ℚ :=
  if o.sortBy = "name" then
    let cmp := localeCompare a.category b.category
    if o.sortDirection = "asc" then cmp else -cmp
  else if o.sortBy = "variance" then
    let valA := getVariance a o.comparisonType
    let valB := getVariance b o.comparisonType
    if o.sortDirection = "asc" then valA - valB else valB - valA
  else
    let valA := a.actual
    let valB := b.actual
    if o.sortDirection = "asc" then valA - valB else valB - valA

/-- The sorted copy `[...data.dataPoints].sort(...)` of `applyTopN`, modelled
with a stable merge sort as mandated for `Array.prototype.sort`. -/
def sortedDataPoints (localeCompare : String → String → ℚ) (data : ParsedData)
    (o : TopNOptions) : List DataPoint :=
  data.dataPoints.mergeSort (fun a b => topNCompareValue localeCompare o a b ≤ 0)

/-- The synthetic "Others" row of `applyTopN`, with its variances recomputed
from the aggregated sums. -/
def othersPoint (o : TopNOptions) (rest : List DataPoint) : DataPoint :=
  let actual := (rest.map DataPoint.actual).sum
  let budget := (rest.map DataPoint.budget).sum
  let previousYear := (rest.map DataPoint.previousYear).sum
  let forecast := (rest.map DataPoint.forecast).sum
  { category := o.othersLabel, group := "",
    actual := actual, budget := budget,
    previousYear := previousYear, forecast := forecast,
    comment := "",
    varianceToBudget := actual - budget,
    varianceToBudgetPct := calculatePercentage (actual - budget) budget,
    varianceToPY := actual - previousYear,
    varianceToPYPct := calculatePercentage (actual - previousYear) previousYear,
    varianceToFC := actual - forecast,
    varianceToFCPct := calculatePercentage (actual - forecast) forecast,
    tooltipFields := none,
    index := (o.count : ℚ) }

/-- `applyTopN` from dataParser. -/
def applyTopN (localeCompare : String → String → ℚ) (data : ParsedData)
    (o : TopNOptions) : ParsedData :=
  if ¬o.enable ∨ data.dataPoints.length ≤ o.count then data
  else
    let sorted := sortedDataPoints localeCompare data o
    let topN := sorted.take o.count
    let rest := sorted.drop o.count
    if o.showOthers ∧ 0 < rest.length then
      { data with dataPoints := topN ++ [othersPoint o rest] }
    else
      { data with dataPoints := topN }

/-- A constant stand-in for `Math.sin`, used to instantiate witnesses. -/
def sin0 : ℚ → ℚ := fun _ => 0

/-- A constant stand-in for `localeCompare`, used to instantiate witnesses. -/
def lc0 : String → String → ℚ := fun _ _ => 0

/-- A baseline layout config with every peripheral disabled. -/
def cfgPlain : LayoutConfig :=
  { titleShow := false, legendShow := false, legendPosition := .right,
    commentBoxShow := false, categoriesShow := false, categoriesRotation := 0,
    categoriesMaxWidth := 100, categoriesFontSize := 10,
    hasComments := true, chartType := "variance", breakpoint := "large" }

/-- Total peripheral inset carved from the left edge (left legend). -/
def periLeft (c : LayoutConfig) : ℚ :=
  if c.legendShow ∧ c.legendPosition = .left then 80 else 0

/-- Total peripheral inset carved from the top edge (title, top legend). -/
def periTop (c : LayoutConfig) : ℚ :=
  (if c.titleShow then 30 else 0) +
    (if c.legendShow ∧ c.legendPosition = .top then 30 else 0)

/-- Total peripheral inset carved from the right edge (right legend, comment box). -/
def periRight (c : LayoutConfig) : ℚ :=
  (if c.legendShow ∧ c.legendPosition = .right then 80 else 0) +
    (if c.commentBoxShow ∧ c.hasComments then 220 else 0)

/-- Total peripheral inset carved from the bottom edge (bottom legend). -/
def periBottom (c : LayoutConfig) : ℚ :=
  if c.legendShow ∧ c.legendPosition = .bottom then 30 else 0

/-- The horizontal clamp of `calculateLayout` is not triggered. -/
def hClampFree (width height : ℚ) (c : LayoutConfig) (msin : ℚ → ℚ) : Prop :=
  (preClampMargins width height c msin).left + (preClampMargins width height c msin).right
    ≤ width - 50

/-- The vertical clamp of `calculateLayout` is not triggered. -/
def vClampFree (width height : ℚ) (c : LayoutConfig) (msin : ℚ → ℚ) : Prop :=
  (preClampMargins width height c msin).top + (preClampMargins width height c msin).bottom
    ≤ height - 30

instance (width height : ℚ) (c : LayoutConfig) (msin : ℚ → ℚ) :
    Decidable (hClampFree width height c msin) :=
  inferInstanceAs (Decidable ((preClampMargins width height c msin).left +
    (preClampMargins width height c msin).right ≤ width - 50))

instance (width height : ℚ) (c : LayoutConfig) (msin : ℚ → ℚ) :
    Decidable (vClampFree width height c msin) :=
  inferInstanceAs (Decidable ((preClampMargins width height c msin).top +
    (preClampMargins width height c msin).bottom ≤ height - 30))

/-- A small sample row used to instantiate witnesses. -/
def sampleRow (category : String) (actual budget : ℚ) : DataPoint :=
  parseRowDataPoint category "" "" [] actual budget 0 0 0

/-- A small sample dataset used to instantiate witnesses. -/
def sampleParsedData : ParsedData :=
  { dataPoints := [sampleRow "A" 10 5, sampleRow "B" 30 20, sampleRow "C" 20 25],
    groups := [], hasActual := true, hasBudget := true,
    hasPreviousYear := false, hasForecast := false, hasGroups := false,
    hasComments := false,
    totals := { actual := 60, budget := 50, previousYear := 0, forecast := 0 },
    maxValue := 30, minValue := -5 }

/-- Sample Top-N options used to instantiate witnesses. -/
def sampleTopN : TopNOptions :=
  { enable := true, count := 2, sortBy := "actual", sortDirection := "desc",
    showOthers := true, othersLabel := "Others", comparisonType := .budget }

/-- A config with title, right legend and comment box all enabled. -/
def withAllPeripherals (c : LayoutConfig) : LayoutConfig :=
  { c with titleShow := true, legendShow := true, legendPosition := .right,
           commentBoxShow := true, hasComments := true }

/-- A config with title, legend and comment box all disabled. -/
def withoutPeripherals (c : LayoutConfig) : LayoutConfig :=
  { c with titleShow := false, legendShow := false, commentBoxShow := false,
           hasComments := true }

lemma availableAfterPeripherals_eq (width height : ℚ) (c : LayoutConfig) :
    availableAfterPeripherals width height c =
      { x := periLeft c, y := periTop c,
        width := width - periLeft c - periRight c,
        height := height - periTop c - periBottom c } := by
  cases ht : c.titleShow <;> cases hl : c.legendShow <;>
    rcases hp : c.legendPosition <;>
    cases hcb : c.commentBoxShow <;> cases hhc : c.hasComments <;>
    simp [availableAfterPeripherals, availableAfterLegend, availableAfterTitle,
      carveTitle, carveLegend, carveCommentBox, initialAvailable,
      periLeft, periTop, periRight, periBottom, ht, hl, hp, hcb, hhc, Rect.mk.injEq] <;>
    ring_nf

lemma preClampMargins_eq (width height : ℚ) (c : LayoutConfig) (msin : ℚ → ℚ) :
    preClampMargins width height c msin =
      { top := periTop c + (axisMargins c msin).top,
        right := periRight c + (axisMargins c msin).right,
        bottom := periBottom c + (axisMargins c msin).bottom,
        left := periLeft c + (axisMargins c msin).left } := by
  simp only [preClampMargins, availableAfterPeripherals_eq, Margins.mk.injEq]
  refine ⟨by ring, by ring, by ring, by ring⟩

lemma periLeft_nonneg (c : LayoutConfig) : 0 ≤ periLeft c := by
  unfold periLeft; split <;> norm_num

lemma periTop_nonneg (c : LayoutConfig) : 0 ≤ periTop c := by
  unfold periTop; split <;> split <;> norm_num

lemma periRight_nonneg (c : LayoutConfig) : 0 ≤ periRight c := by
  unfold periRight; split <;> split <;> norm_num

lemma periBottom_nonneg (c : LayoutConfig) : 0 ≤ periBottom c := by
  unfold periBottom; split <;> norm_num

lemma axisMargins_top_ge (c : LayoutConfig) (msin : ℚ → ℚ) :
    20 ≤ (axisMargins c msin).top := by
  unfold axisMargins; split <;> split <;> norm_num

lemma axisMargins_right_eq (c : LayoutConfig) (msin : ℚ → ℚ) :
    (axisMargins c msin).right = 30 := by
  unfold axisMargins; split <;> split <;> norm_num

lemma axisMargins_left_ge (c : LayoutConfig) (msin : ℚ → ℚ) :
    50 ≤ (axisMargins c msin).left := by
  unfold axisMargins; split <;> split <;> norm_num

lemma axisBottomBase_nonneg (c : LayoutConfig) (msin : ℚ → ℚ)
    (hfs : 0 ≤ c.categoriesFontSize) (hmw : 0 ≤ c.categoriesMaxWidth)
    (hsin : 0 ≤ msin |c.categoriesRotation|) :
    0 ≤ axisBottomBase c msin := by
  unfold axisBottomBase
  split
  · split
    · linarith
    · have hmin : 0 ≤ min c.categoriesMaxWidth 150 := le_min hmw (by norm_num)
      have := mul_nonneg hmin hsin
      linarith
  · norm_num

lemma axisBottomValue_nonneg (c : LayoutConfig) (msin : ℚ → ℚ)
    (hfs : 0 ≤ c.categoriesFontSize) (hmw : 0 ≤ c.categoriesMaxWidth)
    (hsin : 0 ≤ msin |c.categoriesRotation|) :
    0 ≤ axisBottomValue c msin := by
  have := axisBottomBase_nonneg c msin hfs hmw hsin
  unfold axisBottomValue; split <;> linarith

lemma axisMargins_bottom_nonneg (c : LayoutConfig) (msin : ℚ → ℚ)
    (hfs : 0 ≤ c.categoriesFontSize) (hmw : 0 ≤ c.categoriesMaxWidth)
    (hsin : 0 ≤ msin |c.categoriesRotation|) :
    0 ≤ (axisMargins c msin).bottom := by
  have hab := axisBottomValue_nonneg c msin hfs hmw hsin
  unfold axisMargins
  split <;> split <;> simp_all [le_min_iff]

lemma preClampMargins_left_ge (width height : ℚ) (c : LayoutConfig) (msin : ℚ → ℚ) :
    50 ≤ (preClampMargins width height c msin).left := by
  rw [preClampMargins_eq]
  have := periLeft_nonneg c
  have := axisMargins_left_ge c msin
  simp only
  linarith

lemma preClampMargins_right_ge (width height : ℚ) (c : LayoutConfig) (msin : ℚ → ℚ) :
    30 ≤ (preClampMargins width height c msin).right := by
  rw [preClampMargins_eq]
  have := periRight_nonneg c
  have := axisMargins_right_eq c msin
  simp only
  linarith

lemma preClampMargins_top_ge (width height : ℚ) (c : LayoutConfig) (msin : ℚ → ℚ) :
    20 ≤ (preClampMargins width height c msin).top := by
  rw [preClampMargins_eq]
  have := periTop_nonneg c
  have := axisMargins_top_ge c msin
  simp only
  linarith

lemma preClampMargins_bottom_nonneg (width height : ℚ) (c : LayoutConfig) (msin : ℚ → ℚ)
    (hfs : 0 ≤ c.categoriesFontSize) (hmw : 0 ≤ c.categoriesMaxWidth)
    (hsin : 0 ≤ msin |c.categoriesRotation|) :
    0 ≤ (preClampMargins width height c msin).bottom := by
  rw [preClampMargins_eq]
  have := periBottom_nonneg c
  have := axisMargins_bottom_nonneg c msin hfs hmw hsin
  simp only
  linarith

lemma clampHorizontal_top (width : ℚ) (m : Margins) :
    (clampHorizontal width m).top = m.top := by
  unfold clampHorizontal; split <;> rfl

lemma clampHorizontal_bottom (width : ℚ) (m : Margins) :
    (clampHorizontal width m).bottom = m.bottom := by
  unfold clampHorizontal; split <;> rfl

lemma clampVertical_left (height : ℚ) (m : Margins) :
    (clampVertical height m).left = m.left := by
  unfold clampVertical; split <;> rfl

lemma clampVertical_right (height : ℚ) (m : Margins) :
    (clampVertical height m).right = m.right := by
  unfold clampVertical; split <;> rfl

lemma clampHorizontal_of_le (width : ℚ) (m : Margins)
    (h : m.left + m.right ≤ width - 50) : clampHorizontal width m = m := by
  unfold clampHorizontal
  rw [if_neg (by linarith)]

lemma clampVertical_of_le (height : ℚ) (m : Margins)
    (h : m.top + m.bottom ≤ height - 30) : clampVertical height m = m := by
  unfold clampVertical
  rw [if_neg (by linarith)]

lemma floor_pair_sum_le (cap a b : ℚ) (hab : a + b ≠ 0) :
    jsFloor (a * (cap / (a + b))) + jsFloor (b * (cap / (a + b))) ≤ cap := by
  have hsum : a * (cap / (a + b)) + b * (cap / (a + b)) = cap := by
    field_simp
    ring
  have h1 : jsFloor (a * (cap / (a + b))) ≤ a * (cap / (a + b)) := Int.floor_le _
  have h2 : jsFloor (b * (cap / (a + b))) ≤ b * (cap / (a + b)) := Int.floor_le _
  linarith

lemma floor_pair_sum_gt (cap a b : ℚ) (hab : a + b ≠ 0) :
    cap - 2 < jsFloor (a * (cap / (a + b))) + jsFloor (b * (cap / (a + b))) := by
  have hsum : a * (cap / (a + b)) + b * (cap / (a + b)) = cap := by
    field_simp
    ring
  have h1 : a * (cap / (a + b)) - 1 < jsFloor (a * (cap / (a + b))) :=
    Int.sub_one_lt_floor _
  have h2 : b * (cap / (a + b)) - 1 < jsFloor (b * (cap / (a + b))) :=
    Int.sub_one_lt_floor _
  linarith

lemma clampHorizontal_sum_le (width : ℚ) (m : Margins) (hpos : 0 < m.left + m.right) :
    (clampHorizontal width m).left + (clampHorizontal width m).right ≤ width - 50 := by
  unfold clampHorizontal
  split
  · exact floor_pair_sum_le (width - 50) m.left m.right (ne_of_gt hpos)
  · linarith [not_lt.mp (by simpa using ‹¬m.left + m.right > width - 50›)]

lemma clampHorizontal_sum_gt (width : ℚ) (m : Margins)
    (htrig : m.left + m.right > width - 50) (hpos : 0 < m.left + m.right) :
    width - 52 < (clampHorizontal width m).left + (clampHorizontal width m).right := by
  unfold clampHorizontal
  rw [if_pos htrig]
  dsimp only
  have := floor_pair_sum_gt (width - 50) m.left m.right (ne_of_gt hpos)
  linarith

lemma clampVertical_sum_le (height : ℚ) (m : Margins) (hpos : 0 < m.top + m.bottom) :
    (clampVertical height m).top + (clampVertical height m).bottom ≤ height - 30 := by
  unfold clampVertical
  split
  · exact floor_pair_sum_le (height - 30) m.top m.bottom (ne_of_gt hpos)
  · linarith [not_lt.mp (by simpa using ‹¬m.top + m.bottom > height - 30›)]

lemma clampVertical_sum_gt (height : ℚ) (m : Margins)
    (htrig : m.top + m.bottom > height - 30) (hpos : 0 < m.top + m.bottom) :
    height - 32 < (clampVertical height m).top + (clampVertical height m).bottom := by
  unfold clampVertical
  rw [if_pos htrig]
  dsimp only
  have := floor_pair_sum_gt (height - 30) m.top m.bottom (ne_of_gt hpos)
  linarith

lemma clampHorizontal_nonneg (width : ℚ) (m : Margins)
    (hl : 0 ≤ m.left) (hr : 0 ≤ m.right) (hw : 0 < width - 50) :
    0 ≤ (clampHorizontal width m).left ∧ 0 ≤ (clampHorizontal width m).right := by
  unfold clampHorizontal
  split
  · rename_i htrig
    have hpos : 0 < m.left + m.right := by linarith
    have hscale : 0 ≤ (width - 50) / (m.left + m.right) :=
      div_nonneg (by linarith) (by linarith)
    dsimp only
    unfold jsFloor
    constructor
    · exact_mod_cast Int.floor_nonneg.mpr (mul_nonneg hl hscale)
    · exact_mod_cast Int.floor_nonneg.mpr (mul_nonneg hr hscale)
  · exact ⟨hl, hr⟩

lemma clampVertical_nonneg (height : ℚ) (m : Margins)
    (ht : 0 ≤ m.top) (hb : 0 ≤ m.bottom) (hh : 0 < height - 30) :
    0 ≤ (clampVertical height m).top ∧ 0 ≤ (clampVertical height m).bottom := by
  unfold clampVertical
  split
  · rename_i htrig
    have hpos : 0 < m.top + m.bottom := by linarith
    have hscale : 0 ≤ (height - 30) / (m.top + m.bottom) :=
      div_nonneg (by linarith) (by linarith)
    dsimp only
    unfold jsFloor
    constructor
    · exact_mod_cast Int.floor_nonneg.mpr (mul_nonneg ht hscale)
    · exact_mod_cast Int.floor_nonneg.mpr (mul_nonneg hb hscale)
  · exact ⟨ht, hb⟩

lemma calculateLayout_margin_eq (width height : ℚ) (c : LayoutConfig) (msin : ℚ → ℚ)
    (hbp : c.breakpoint ≠ "small") :
    (calculateLayout width height c msin).margin =
      clampVertical height (clampHorizontal width (preClampMargins width height c msin)) := by
  rw [calculateLayout, if_neg hbp, clampMargins]

lemma calculateLayout_layout_eq (width height : ℚ) (c : LayoutConfig) (msin : ℚ → ℚ)
    (hbp : c.breakpoint ≠ "small") :
    (calculateLayout width height c msin).layout = some (peripheralLayout width height c) := by
  rw [calculateLayout, if_neg hbp]


lemma calculateLayout_margin_of_free (width height : ℚ) (c : LayoutConfig) (msin : ℚ → ℚ)
    (hbp : c.breakpoint ≠ "small")
    (hh : hClampFree width height c msin) (hv : vClampFree width height c msin) :
    (calculateLayout width height c msin).margin = preClampMargins width height c msin := by
  rw [calculateLayout_margin_eq width height c msin hbp,
    clampHorizontal_of_le width _ hh, clampVertical_of_le height _ hv]

lemma calculateLayout_margin_top_of_vfree (width height : ℚ) (c : LayoutConfig) (msin : ℚ → ℚ)
    (hbp : c.breakpoint ≠ "small") (hv : vClampFree width height c msin) :
    (calculateLayout width height c msin).margin.top =
      (preClampMargins width height c msin).top := by
  rw [calculateLayout_margin_eq width height c msin hbp]
  have hv2 : (clampHorizontal width (preClampMargins width height c msin)).top +
      (clampHorizontal width (preClampMargins width height c msin)).bottom ≤ height - 30 := by
    rw [clampHorizontal_top, clampHorizontal_bottom]; exact hv
  rw [clampVertical_of_le height _ hv2, clampHorizontal_top]

lemma calculateLayout_margin_bottom_of_vfree (width height : ℚ) (c : LayoutConfig) (msin : ℚ → ℚ)
    (hbp : c.breakpoint ≠ "small") (hv : vClampFree width height c msin) :
    (calculateLayout width height c msin).margin.bottom =
      (preClampMargins width height c msin).bottom := by
  rw [calculateLayout_margin_eq width height c msin hbp]
  have hv2 : (clampHorizontal width (preClampMargins width height c msin)).top +
      (clampHorizontal width (preClampMargins width height c msin)).bottom ≤ height - 30 := by
    rw [clampHorizontal_top, clampHorizontal_bottom]; exact hv
  rw [clampVertical_of_le height _ hv2, clampHorizontal_bottom]

lemma calculateLayout_margin_right_of_hfree (width height : ℚ) (c : LayoutConfig) (msin : ℚ → ℚ)
    (hbp : c.breakpoint ≠ "small") (hh : hClampFree width height c msin) :
    (calculateLayout width height c msin).margin.right =
      (preClampMargins width height c msin).right := by
  rw [calculateLayout_margin_eq width height c msin hbp,
    clampHorizontal_of_le width _ hh, clampVertical_right]

lemma calculateLayout_margin_left_of_hfree (width height : ℚ) (c : LayoutConfig) (msin : ℚ → ℚ)
    (hbp : c.breakpoint ≠ "small") (hh : hClampFree width height c msin) :
    (calculateLayout width height c msin).margin.left =
      (preClampMargins width height c msin).left := by
  rw [calculateLayout_margin_eq width height c msin hbp,
    clampHorizontal_of_le width _ hh, clampVertical_left]

/-- C4: the variance-percent computation returns 0 when the base is 0 and
`(variance / |base|) * 100` otherwise; each per-row variance field equals
`actual` minus the corresponding comparison value; and the concrete cases
`variance(120,100) = 20` with `variancePercent(20,100) = 20`,
`variance(90,100) = -10` with `variancePercent(-10,100) = -10`, and
`variance(50,0) = 50` with `variancePercent(50,0) = 0` all hold. -/
theorem C4_variance_model :
    (∀ v : ℚ, calculatePercentage v 0 = 0) ∧
    (∀ v b : ℚ, b ≠ 0 → calculatePercentage v b = v / |b| * 100) ∧
    (∀ (category group comment : String) (tf : List TooltipField)
        (actual budget previousYear forecast index : ℚ),
      (parseRowDataPoint category group comment tf actual budget previousYear forecast
          index).varianceToBudget = actual - budget ∧
      (parseRowDataPoint category group comment tf actual budget previousYear forecast
          index).varianceToBudgetPct = calculatePercentage (actual - budget) budget ∧
      (parseRowDataPoint category group comment tf actual budget previousYear forecast
          index).varianceToPY = actual - previousYear ∧
      (parseRowDataPoint category group comment tf actual budget previousYear forecast
          index).varianceToPYPct = calculatePercentage (actual - previousYear) previousYear ∧
      (parseRowDataPoint category group comment tf actual budget previousYear forecast
          index).varianceToFC = actual - forecast ∧
      (parseRowDataPoint category group comment tf actual budget previousYear forecast
          index).varianceToFCPct = calculatePercentage (actual - forecast) forecast) ∧
    ((parseRowDataPoint "r" "" "" [] 120 100 0 0 0).varianceToBudget = 20 ∧
      (parseRowDataPoint "r" "" "" [] 120 100 0 0 0).varianceToBudgetPct = 20 ∧
      (parseRowDataPoint "r" "" "" [] 90 100 0 0 0).varianceToBudget = -10 ∧
      (parseRowDataPoint "r" "" "" [] 90 100 0 0 0).varianceToBudgetPct = -10 ∧
      (parseRowDataPoint "r" "" "" [] 50 0 0 0 0).varianceToBudget = 50 ∧
      (parseRowDataPoint "r" "" "" [] 50 0 0 0 0).varianceToBudgetPct = 0) := by
  refine ⟨fun v => by simp [calculatePercentage], fun v b hb => by simp [calculatePercentage, hb],
    fun category group comment tf actual budget previousYear forecast index => ?_, ?_⟩
  · exact ⟨rfl, rfl, rfl, rfl, rfl, rfl⟩
  · norm_num [parseRowDataPoint, calculatePercentage]

/-- Witness for C4 at variance 20 against base 100. -/
theorem C4_variance_model_witness :
    (100 : ℚ) ≠ 0 ∧ calculatePercentage 20 100 = 20 / |(100 : ℚ)| * 100 :=
  ⟨by norm_num, C4_variance_model.2.1 20 100 (by norm_num)⟩

/-- C6 counterexample: a 200 by 100 cell with headers hidden, rotation 0 and
font size 12 keeps only 58px of chart height, below 60% of the available
100px cell height, because the fixed 10px top margin is not accounted for
by the claimed guarantee. -/
theorem C6_counterexample :
    (calculateCellLayout { cols := 2, rows := 2, cellWidth := 200, cellHeight := 100 } 0
        { columns := 0, spacing := 10, showHeaders := false, categoryRotation := 0,
          categoryMaxWidth := 100, categoryFontSize := 12 } sin0).chartHeight <
      (6 / 10) *
        ((100 : ℚ) -
          (calculateCellLayout { cols := 2, rows := 2, cellWidth := 200, cellHeight := 100 } 0
              { columns := 0, spacing := 10, showHeaders := false, categoryRotation := 0,
                categoryMaxWidth := 100, categoryFontSize := 12 } sin0).headerHeight) := by
  norm_num [calculateCellLayout, jsMod, jsTrunc, jsFloor, sin0]

/-- C6 amended: the cell bottom margin is `20 + fontSize` for rotation 0, else
`15 + min(maxWidth,100) * sin(|rotation|)`, clamped to at most
`floor(0.4 * (cellHeight - headerHeight))`; consequently the chart height is
at least 60% of the available cell height minus the fixed 10px top margin. -/
theorem C6_cell_bottom_margin (grid : SmallMultiplesGrid) (cellIndex : ℚ)
    (c : SmallMultiplesConfig) (msin : ℚ → ℚ) :
    (calculateCellLayout grid cellIndex c msin).margin.bottom =
      min (if |c.categoryRotation| = 0 then 20 + c.categoryFontSize
           else 15 + min c.categoryMaxWidth 100 * msin |c.categoryRotation|)
        (jsFloor ((grid.cellHeight - (calculateCellLayout grid cellIndex c msin).headerHeight)
            * (4 / 10))) ∧
    (6 / 10) * (grid.cellHeight - (calculateCellLayout grid cellIndex c msin).headerHeight) - 10
      ≤ (calculateCellLayout grid cellIndex c msin).chartHeight := by
  constructor
  · rfl
  · show (6 / 10) * (grid.cellHeight - (if c.showHeaders then (20:ℚ) else 0)) - 10 ≤
      (grid.cellHeight - (if c.showHeaders then (20:ℚ) else 0)) - 10 -
        min (if |c.categoryRotation| = 0 then 20 + c.categoryFontSize
             else 15 + min c.categoryMaxWidth 100 * msin |c.categoryRotation|)
          (jsFloor ((grid.cellHeight - (if c.showHeaders then (20:ℚ) else 0)) * (4 / 10)))
    have hfl : jsFloor ((grid.cellHeight - (if c.showHeaders then (20:ℚ) else 0)) * (4 / 10)) ≤
        (grid.cellHeight - (if c.showHeaders then (20:ℚ) else 0)) * (4 / 10) := Int.floor_le _
    have hmin : min (if |c.categoryRotation| = 0 then 20 + c.categoryFontSize
          else 15 + min c.categoryMaxWidth 100 * msin |c.categoryRotation|)
        (jsFloor ((grid.cellHeight - (if c.showHeaders then (20:ℚ) else 0)) * (4 / 10))) ≤
        jsFloor ((grid.cellHeight - (if c.showHeaders then (20:ℚ) else 0)) * (4 / 10)) :=
      min_le_right _ _
    linarith

/-- C9 counterexample: for a layout computed with the comment box disabled no
`commentBoxArea` is recorded, yet `getCommentBoxPosition` still returns a
record rather than null (it falls back to a default 220px allocation). -/
theorem C9_counterexample :
    (calculateLayout 800 400 cfgPlain sin0).layout.bind ChartLayout.commentBoxArea = none ∧
    getCommentBoxPosition (calculateLayout 800 400 cfgPlain sin0) ≠ none := by
  constructor
  · rw [calculateLayout_layout_eq 800 400 cfgPlain sin0 (by decide)]
    simp [peripheralLayout, carveCommentBox, cfgPlain]
  · rw [getCommentBoxPosition]
    simp

/-- C9 amended: `getCommentBoxPosition` never returns null; when a
`commentBoxArea` was recorded it returns `x = chartWidth + 10`, `y = 0`,
`boxWidth = max(80, commentBoxArea.width - 30)` and `boxHeight = chartHeight`,
and when none was recorded it returns the same record computed from a default
allocation of 220 (so `boxWidth = max(80, 190) = 190`). -/
theorem C9_comment_box_position (d : LayoutDimensions) :
    (getCommentBoxPosition d).isSome = true ∧
    (∀ r : Rect, d.layout.bind ChartLayout.commentBoxArea = some r →
      getCommentBoxPosition d =
        some { x := (getChartArea d).chartWidth + 10, y := 0,
               boxWidth := max 80 (r.width - 30),
               boxHeight := (getChartArea d).chartHeight }) ∧
    (d.layout.bind ChartLayout.commentBoxArea = none →
      getCommentBoxPosition d =
        some { x := (getChartArea d).chartWidth + 10, y := 0,
               boxWidth := max 80 (220 - 30),
               boxHeight := (getChartArea d).chartHeight }) := by
  refine ⟨?_, ?_, ?_⟩
  · rw [getCommentBoxPosition]; rfl
  · intro r hr
    rcases hd : d.layout with _ | l
    · rw [hd] at hr; simp at hr
    · rcases hl : l.commentBoxArea with _ | r2
      · rw [hd] at hr; simp [hl] at hr
      · rw [hd] at hr
        simp only [Option.some_bind, hl, Option.some.injEq] at hr
        subst hr
        rw [getCommentBoxPosition, hd]
        simp [hl]
  · intro hr
    rcases hd : d.layout with _ | l
    · rw [getCommentBoxPosition, hd]
    · rcases hl : l.commentBoxArea with _ | r2
      · rw [getCommentBoxPosition, hd]
        simp [hl]
      · rw [hd] at hr; simp [hl] at hr

/-- Witness for C9 at a concrete layout that records a comment box area. -/
theorem C9_comment_box_position_witness :
    (calculateLayout 800 400 { cfgPlain with commentBoxShow := true } sin0).layout.bind
        ChartLayout.commentBoxArea = some { x := 580, y := 0, width := 220, height := 400 } ∧
    getCommentBoxPosition (calculateLayout 800 400 { cfgPlain with commentBoxShow := true } sin0)
      = some { x := (getChartArea (calculateLayout 800 400 { cfgPlain with commentBoxShow := true } sin0)).chartWidth + 10,
               y := 0,
               boxWidth := max 80 (220 - 30),
               boxHeight := (getChartArea (calculateLayout 800 400 { cfgPlain with commentBoxShow := true } sin0)).chartHeight } := by
  have hbind : (calculateLayout 800 400 { cfgPlain with commentBoxShow := true } sin0).layout.bind
      ChartLayout.commentBoxArea = some { x := 580, y := 0, width := 220, height := 400 } := by
    rw [calculateLayout_layout_eq 800 400 _ sin0 (by decide)]
    simp only [peripheralLayout, carveCommentBox, availableAfterLegend, availableAfterTitle,
      carveTitle, carveLegend, initialAvailable, cfgPlain, Option.bind_some]
    norm_num
  exact ⟨hbind, (C9_comment_box_position _).2.1 _ hbind⟩

lemma getSmallMultiplesViewport_eq (width height : ℚ) (c : LayoutConfig) :
    getSmallMultiplesViewport width height c = availableAfterPeripherals width height c := by
  cases ht : c.titleShow <;> cases hl : c.legendShow <;>
    rcases hp : c.legendPosition <;>
    cases hcb : c.commentBoxShow <;> cases hhc : c.hasComments <;>
    simp [getSmallMultiplesViewport, availableAfterPeripherals, availableAfterLegend,
      availableAfterTitle, carveTitle, carveLegend, carveCommentBox, initialAvailable,
      ht, hl, hp, hcb, hhc]

/-- C3: for non-small breakpoints, when the comment box is shown and the data
has comments, `calculateLayout` records a `commentBoxArea` of width exactly 220
whose right edge coincides with the right edge of the region remaining after
the title and legend carving (regardless of legend position), and shrinks the
chart area width by 220; when `hasComments` is false, no `commentBoxArea` is
recorded and no horizontal space is carved even if the box is shown. -/
theorem C3_comment_box_carving (width height : ℚ) (c : LayoutConfig) (msin : ℚ → ℚ)
    (hbp : c.breakpoint ≠ "small") :
    (c.commentBoxShow = true → c.hasComments = true →
      (calculateLayout width height c msin).layout.bind ChartLayout.commentBoxArea =
        some { x := (availableAfterLegend width height c).x +
                      (availableAfterLegend width height c).width - 220,
               y := (availableAfterLegend width height c).y,
               width := 220,
               height := (availableAfterLegend width height c).height } ∧
      (calculateLayout width height c msin).layout.map ChartLayout.chartArea =
        some { x := (availableAfterLegend width height c).x,
               y := (availableAfterLegend width height c).y,
               width := (availableAfterLegend width height c).width - 220,
               height := (availableAfterLegend width height c).height }) ∧
    (c.hasComments = false →
      (calculateLayout width height c msin).layout.bind ChartLayout.commentBoxArea = none ∧
      (calculateLayout width height c msin).layout.map ChartLayout.chartArea =
        some (availableAfterLegend width height c)) := by
  constructor
  · intro hcb hhc
    rw [calculateLayout_layout_eq width height c msin hbp]
    constructor
    · simp [peripheralLayout, carveCommentBox, hcb, hhc]
    · simp [peripheralLayout, availableAfterPeripherals, carveCommentBox, hcb, hhc]
  · intro hhc
    rw [calculateLayout_layout_eq width height c msin hbp]
    constructor
    · simp [peripheralLayout, carveCommentBox, hhc]
    · simp [peripheralLayout, availableAfterPeripherals, carveCommentBox, hhc]

/-- Witness for C3 on an 800 by 400 viewport with the comment box enabled. -/
theorem C3_comment_box_carving_witness :
    availableAfterLegend 800 400 { cfgPlain with commentBoxShow := true } =
      { x := 0, y := 0, width := 800, height := 400 } ∧
    (calculateLayout 800 400 { cfgPlain with commentBoxShow := true } sin0).layout.bind
        ChartLayout.commentBoxArea =
      some { x := (availableAfterLegend 800 400 { cfgPlain with commentBoxShow := true }).x +
                    (availableAfterLegend 800 400 { cfgPlain with commentBoxShow := true }).width
                    - 220,
             y := (availableAfterLegend 800 400 { cfgPlain with commentBoxShow := true }).y,
             width := 220,
             height := (availableAfterLegend 800 400 { cfgPlain with commentBoxShow := true }).height } :=
  ⟨by norm_num [availableAfterLegend, availableAfterTitle, carveTitle, carveLegend,
      initialAvailable, cfgPlain],
   ((C3_comment_box_carving 800 400 { cfgPlain with commentBoxShow := true } sin0
      (by decide)).1 rfl rfl).1⟩

/-- C5: for non-small breakpoints, `getSmallMultiplesViewport` returns exactly
the `chartArea` rect recorded by `calculateLayout`: both apply the identical
title, legend and comment-box carving steps, and the small-multiples variant
simply skips the axis-margin step which does not affect `chartArea`. -/
theorem C5_small_multiples_viewport (width height : ℚ) (c : LayoutConfig) (msin : ℚ → ℚ)
    (hbp : c.breakpoint ≠ "small") :
    (calculateLayout width height c msin).layout.map ChartLayout.chartArea =
      some (getSmallMultiplesViewport width height c) := by
  rw [calculateLayout_layout_eq width height c msin hbp, getSmallMultiplesViewport_eq]
  simp [peripheralLayout]

/-- Witness for C5 on an 800 by 400 viewport with title, right legend and
comment box all enabled. -/
theorem C5_small_multiples_viewport_witness :
    (calculateLayout 800 400
        { cfgPlain with titleShow := true, legendShow := true, commentBoxShow := true }
        sin0).layout.map ChartLayout.chartArea =
      some (getSmallMultiplesViewport 800 400
        { cfgPlain with titleShow := true, legendShow := true, commentBoxShow := true }) ∧
    getSmallMultiplesViewport 800 400
        { cfgPlain with titleShow := true, legendShow := true, commentBoxShow := true } =
      { x := 0, y := 30, width := 500, height := 370 } :=
  ⟨C5_small_multiples_viewport 800 400
      { cfgPlain with titleShow := true, legendShow := true, commentBoxShow := true }
      sin0 (by decide),
   by norm_num [getSmallMultiplesViewport, cfgPlain]⟩

/-- C1 counterexample: on a 135 by 500 viewport with no peripherals the
unclamped margins are left 60 and right 30, whose sum 90 exceeds the cap
135 - 50 = 85, yet after the proportional floor scaling the returned sum is
floor(60*85/90) + floor(30*85/90) = 56 + 28 = 84, not exactly 85. -/
theorem C1_counterexample :
    (135 : ℚ) - 50 < (preClampMargins 135 500 cfgPlain sin0).left +
        (preClampMargins 135 500 cfgPlain sin0).right ∧
    (calculateLayout 135 500 cfgPlain sin0).margin.left +
        (calculateLayout 135 500 cfgPlain sin0).margin.right ≠ 135 - 50 := by
  have hpre : preClampMargins 135 500 cfgPlain sin0 =
      { top := 30, right := 30, bottom := 60, left := 60 } := by
    simp +decide [preClampMargins_eq, periTop, periRight, periBottom, periLeft,
      axisMargins, axisBottomValue, axisBottomBase, cfgPlain, sin0]
  have hH : clampHorizontal 135 { top := 30, right := 30, bottom := 60, left := 60 } =
      { top := 30, right := 28, bottom := 60, left := 56 } := by
    rw [clampHorizontal, if_pos (by norm_num)]
    norm_num [jsFloor]
  have hV : clampVertical 500 { top := 30, right := 28, bottom := 60, left := 56 } =
      { top := 30, right := 28, bottom := 60, left := 56 } :=
    clampVertical_of_le 500 _ (by norm_num)
  constructor
  · rw [hpre]; norm_num
  · rw [calculateLayout_margin_eq 135 500 cfgPlain sin0 (by decide), hpre, hH, hV]
    norm_num

/-- C1 amended: for non-small breakpoints, whenever the unclamped
`left + right` exceeds `width - 50`, the returned `margin.left + margin.right`
is at most `width - 50` and greater than `width - 52` (the two floors can lose
up to one pixel each, so the sum need not hit the cap exactly, but at least
50px of chart width is still guaranteed); symmetrically, for `height ≥ 30`,
whenever the unclamped `top + bottom` exceeds `height - 30` the returned
`margin.top + margin.bottom` lies in `(height - 32, height - 30]`. -/
theorem C1_margin_clamping (width height : ℚ) (c : LayoutConfig) (msin : ℚ → ℚ)
    (hbp : c.breakpoint ≠ "small") :
    (width - 50 < (preClampMargins width height c msin).left +
        (preClampMargins width height c msin).right →
      (calculateLayout width height c msin).margin.left +
          (calculateLayout width height c msin).margin.right ≤ width - 50 ∧
      width - 52 < (calculateLayout width height c msin).margin.left +
          (calculateLayout width height c msin).margin.right) ∧
    ((30 : ℚ) ≤ height →
      height - 30 < (preClampMargins width height c msin).top +
          (preClampMargins width height c msin).bottom →
      (calculateLayout width height c msin).margin.top +
          (calculateLayout width height c msin).margin.bottom ≤ height - 30 ∧
      height - 32 < (calculateLayout width height c msin).margin.top +
          (calculateLayout width height c msin).margin.bottom) := by
  have hl := preClampMargins_left_ge width height c msin
  have hr := preClampMargins_right_ge width height c msin
  have hpos : 0 < (preClampMargins width height c msin).left +
      (preClampMargins width height c msin).right := by linarith
  rw [calculateLayout_margin_eq width height c msin hbp]
  constructor
  · intro htrig
    rw [clampVertical_left, clampVertical_right]
    refine ⟨clampHorizontal_sum_le width _ hpos, ?_⟩
    exact clampHorizontal_sum_gt width _ htrig hpos
  · intro hh htrig
    have htop := clampHorizontal_top width (preClampMargins width height c msin)
    have hbot := clampHorizontal_bottom width (preClampMargins width height c msin)
    have htrig2 : (clampHorizontal width (preClampMargins width height c msin)).top +
        (clampHorizontal width (preClampMargins width height c msin)).bottom > height - 30 := by
      rw [htop, hbot]; exact htrig
    have hpos2 : 0 < (clampHorizontal width (preClampMargins width height c msin)).top +
        (clampHorizontal width (preClampMargins width height c msin)).bottom := by
      rw [htop, hbot]; linarith
    exact ⟨clampVertical_sum_le height _ hpos2, clampVertical_sum_gt height _ htrig2 hpos2⟩

/-- Witness for C1 on a 135 by 80 viewport where both clamps trigger. -/
theorem C1_margin_clamping_witness :
    ((135 : ℚ) - 50 < (preClampMargins 135 80 cfgPlain sin0).left +
        (preClampMargins 135 80 cfgPlain sin0).right ∧
      (calculateLayout 135 80 cfgPlain sin0).margin.left +
          (calculateLayout 135 80 cfgPlain sin0).margin.right ≤ 135 - 50) ∧
    ((30 : ℚ) ≤ 80 ∧
      (80 : ℚ) - 30 < (preClampMargins 135 80 cfgPlain sin0).top +
          (preClampMargins 135 80 cfgPlain sin0).bottom ∧
      (calculateLayout 135 80 cfgPlain sin0).margin.top +
          (calculateLayout 135 80 cfgPlain sin0).margin.bottom ≤ 80 - 30) := by
  have hpre : preClampMargins 135 80 cfgPlain sin0 =
      { top := 30, right := 30, bottom := 60, left := 60 } := by
    simp +decide [preClampMargins_eq, periTop, periRight, periBottom, periLeft,
      axisMargins, axisBottomValue, axisBottomBase, cfgPlain, sin0]
  have h := C1_margin_clamping 135 80 cfgPlain sin0 (by decide)
  have hH : (135 : ℚ) - 50 < (preClampMargins 135 80 cfgPlain sin0).left +
      (preClampMargins 135 80 cfgPlain sin0).right := by rw [hpre]; norm_num
  have hV : (80 : ℚ) - 30 < (preClampMargins 135 80 cfgPlain sin0).top +
      (preClampMargins 135 80 cfgPlain sin0).bottom := by rw [hpre]; norm_num
  exact ⟨⟨hH, (h.1 hH).1⟩, ⟨by norm_num, hV, (h.2 (by norm_num) hV).1⟩⟩

/-- C2 counterexample: on a 40 by 100 viewport with the small breakpoint the
fixed compact margins give `left + right = 35 + 15 = 50`, which is not less
than the viewport width 40, so the margins invariant fails for arbitrary
viewports and configs. -/
theorem C2_counterexample :
    ¬((calculateLayout 40 100 { cfgPlain with breakpoint := "small" } sin0).margin.left +
        (calculateLayout 40 100 { cfgPlain with breakpoint := "small" } sin0).margin.right
        < 40) := by
  rw [calculateLayout, if_pos (by decide : ({ cfgPlain with breakpoint := "small" }
    : LayoutConfig).breakpoint = "small")]
  norm_num

/-- C2 amended: for viewports with `width > 50` and `height > 30` and configs
whose category font size and max width are non-negative and whose rotation has
a non-negative sine (as for the intended rotations between -180 and 180
degrees), the returned margins are all non-negative and satisfy
`left + right < width` and `top + bottom < height` after clamping; this also
covers the small breakpoint, whose fixed margins sum to 50 and 30. -/
theorem C2_margins_invariant (width height : ℚ) (c : LayoutConfig) (msin : ℚ → ℚ)
    (hw : 50 < width) (hh : 30 < height)
    (hfs : 0 ≤ c.categoriesFontSize) (hmw : 0 ≤ c.categoriesMaxWidth)
    (hsin : 0 ≤ msin |c.categoriesRotation|) :
    0 ≤ (calculateLayout width height c msin).margin.top ∧
    0 ≤ (calculateLayout width height c msin).margin.right ∧
    0 ≤ (calculateLayout width height c msin).margin.bottom ∧
    0 ≤ (calculateLayout width height c msin).margin.left ∧
    (calculateLayout width height c msin).margin.left +
        (calculateLayout width height c msin).margin.right < width ∧
    (calculateLayout width height c msin).margin.top +
        (calculateLayout width height c msin).margin.bottom < height := by
  by_cases hbp : c.breakpoint = "small"
  · rw [calculateLayout, if_pos hbp]
    norm_num
    constructor <;> linarith
  · have hl := preClampMargins_left_ge width height c msin
    have hr := preClampMargins_right_ge width height c msin
    have ht := preClampMargins_top_ge width height c msin
    have hb := preClampMargins_bottom_nonneg width height c msin hfs hmw hsin
    rw [calculateLayout_margin_eq width height c msin hbp]
    have hposH : 0 < (preClampMargins width height c msin).left +
        (preClampMargins width height c msin).right := by linarith
    have hHnn := clampHorizontal_nonneg width (preClampMargins width height c msin)
      (by linarith) (by linarith) (by linarith)
    have hHsum := clampHorizontal_sum_le width (preClampMargins width height c msin) hposH
    have htop := clampHorizontal_top width (preClampMargins width height c msin)
    have hbot := clampHorizontal_bottom width (preClampMargins width height c msin)
    have hposV : 0 < (clampHorizontal width (preClampMargins width height c msin)).top +
        (clampHorizontal width (preClampMargins width height c msin)).bottom := by
      rw [htop, hbot]; linarith
    have hVnn := clampVertical_nonneg height (clampHorizontal width
      (preClampMargins width height c msin)) (by rw [htop]; linarith) (by rw [hbot]; linarith)
      (by linarith)
    have hVsum := clampVertical_sum_le height (clampHorizontal width
      (preClampMargins width height c msin)) hposV
    rw [clampVertical_left, clampVertical_right]
    exact ⟨hVnn.1, hHnn.2, hVnn.2, hHnn.1, by linarith, by linarith⟩

/-- Witness for C2 on an 800 by 400 viewport with the plain config. -/
theorem C2_margins_invariant_witness :
    (50 : ℚ) < 800 ∧ (30 : ℚ) < 400 ∧
    0 ≤ cfgPlain.categoriesFontSize ∧ 0 ≤ cfgPlain.categoriesMaxWidth ∧
    0 ≤ sin0 |cfgPlain.categoriesRotation| ∧
    (calculateLayout 800 400 cfgPlain sin0).margin.left +
        (calculateLayout 800 400 cfgPlain sin0).margin.right < 800 :=
  ⟨by norm_num, by norm_num, by norm_num [cfgPlain], by norm_num [cfgPlain],
   by norm_num [sin0],
   (C2_margins_invariant 800 400 cfgPlain sin0 (by norm_num) (by norm_num)
      (by norm_num [cfgPlain]) (by norm_num [cfgPlain]) (by norm_num [sin0])).2.2.2.2.1⟩

/-- C7 counterexample: on a 300 by 101 viewport the vertical clamp triggers,
and enabling the title raises `margin.top` from floor(30*71/90) = 23 to
floor(60*71/120) = 35, an increase of 12 rather than exactly 30. -/
theorem C7_counterexample :
    (calculateLayout 300 101 { cfgPlain with titleShow := true } sin0).margin.top ≠
      (calculateLayout 300 101 cfgPlain sin0).margin.top + 30 := by
  have hpre0 : preClampMargins 300 101 cfgPlain sin0 =
      { top := 30, right := 30, bottom := 60, left := 60 } := by
    simp +decide [preClampMargins_eq, periTop, periRight, periBottom, periLeft,
      axisMargins, axisBottomValue, axisBottomBase, cfgPlain, sin0]
  have hpreT : preClampMargins 300 101 { cfgPlain with titleShow := true } sin0 =
      { top := 60, right := 30, bottom := 60, left := 60 } := by
    simp +decide [preClampMargins_eq, periTop, periRight, periBottom, periLeft,
      axisMargins, axisBottomValue, axisBottomBase, cfgPlain, sin0]
    all_goals norm_num
  have hH0 : clampHorizontal 300 { top := 30, right := 30, bottom := 60, left := 60 } =
      { top := 30, right := 30, bottom := 60, left := 60 } :=
    clampHorizontal_of_le 300 _ (by norm_num)
  have hHT : clampHorizontal 300 { top := 60, right := 30, bottom := 60, left := 60 } =
      { top := 60, right := 30, bottom := 60, left := 60 } :=
    clampHorizontal_of_le 300 _ (by norm_num)
  have hV0 : clampVertical 101 { top := 30, right := 30, bottom := 60, left := 60 } =
      { top := 23, right := 30, bottom := 47, left := 60 } := by
    rw [clampVertical, if_pos (by norm_num)]
    norm_num [jsFloor]
  have hVT : clampVertical 101 { top := 60, right := 30, bottom := 60, left := 60 } =
      { top := 35, right := 30, bottom := 35, left := 60 } := by
    rw [clampVertical, if_pos (by norm_num)]
    norm_num [jsFloor]
  rw [calculateLayout_margin_eq 300 101 { cfgPlain with titleShow := true } sin0 (by decide),
    hpreT, hHT, hVT,
    calculateLayout_margin_eq 300 101 cfgPlain sin0 (by decide), hpre0, hH0, hV0]
  norm_num

/-- C7 amended: for non-small breakpoints and provided the relevant clamp is
not triggered in either the base or the modified config, enabling the title
alone raises `margin.top` by exactly 30, enabling a right legend alone raises
`margin.right` by exactly 80, enabling the comment box with comments present
raises `margin.right` by exactly 220, and the three effects compose
additively (top +30 and right +300 when all are enabled together). -/
theorem C7_peripheral_additivity (width height : ℚ) (c : LayoutConfig) (msin : ℚ → ℚ)
    (hbp : c.breakpoint ≠ "small") :
    (vClampFree width height { c with titleShow := true } msin →
      vClampFree width height { c with titleShow := false } msin →
      (calculateLayout width height { c with titleShow := true } msin).margin.top =
        (calculateLayout width height { c with titleShow := false } msin).margin.top + 30) ∧
    (hClampFree width height { c with legendShow := true, legendPosition := .right } msin →
      hClampFree width height { c with legendShow := false, legendPosition := .right } msin →
      (calculateLayout width height
          { c with legendShow := true, legendPosition := .right } msin).margin.right =
        (calculateLayout width height
          { c with legendShow := false, legendPosition := .right } msin).margin.right + 80) ∧
    (hClampFree width height { c with commentBoxShow := true, hasComments := true } msin →
      hClampFree width height { c with commentBoxShow := false, hasComments := true } msin →
      (calculateLayout width height
          { c with commentBoxShow := true, hasComments := true } msin).margin.right =
        (calculateLayout width height
          { c with commentBoxShow := false, hasComments := true } msin).margin.right + 220) ∧
    (vClampFree width height (withAllPeripherals c) msin →
      vClampFree width height (withoutPeripherals c) msin →
      hClampFree width height (withAllPeripherals c) msin →
      hClampFree width height (withoutPeripherals c) msin →
      (calculateLayout width height (withAllPeripherals c) msin).margin.top =
        (calculateLayout width height (withoutPeripherals c) msin).margin.top + 30 ∧
      (calculateLayout width height (withAllPeripherals c) msin).margin.right =
        (calculateLayout width height (withoutPeripherals c) msin).margin.right + 300) := by
  refine ⟨?_, ?_, ?_, ?_⟩
  · intro hv1 hv0
    have hax : axisMargins { c with titleShow := true } msin =
        axisMargins { c with titleShow := false } msin := rfl
    rw [calculateLayout_margin_top_of_vfree width height { c with titleShow := true } msin hbp hv1,
      calculateLayout_margin_top_of_vfree width height { c with titleShow := false } msin hbp hv0,
      preClampMargins_eq, preClampMargins_eq, hax]
    simp only [periTop]
    simp
    ring
  · intro hh1 hh0
    have hax : axisMargins { c with legendShow := true, legendPosition := .right } msin =
        axisMargins { c with legendShow := false, legendPosition := .right } msin := rfl
    rw [calculateLayout_margin_right_of_hfree width height
        { c with legendShow := true, legendPosition := .right } msin hbp hh1,
      calculateLayout_margin_right_of_hfree width height
        { c with legendShow := false, legendPosition := .right } msin hbp hh0,
      preClampMargins_eq, preClampMargins_eq, hax]
    simp only [periRight]
    simp
    ring
  · intro hh1 hh0
    have hax : axisMargins { c with commentBoxShow := true, hasComments := true } msin =
        axisMargins { c with commentBoxShow := false, hasComments := true } msin := rfl
    rw [calculateLayout_margin_right_of_hfree width height
        { c with commentBoxShow := true, hasComments := true } msin hbp hh1,
      calculateLayout_margin_right_of_hfree width height
        { c with commentBoxShow := false, hasComments := true } msin hbp hh0,
      preClampMargins_eq, preClampMargins_eq, hax]
    simp only [periRight]
    simp
    ring
  · intro hv1 hv0 hh1 hh0
    have hax : axisMargins (withAllPeripherals c) msin =
        axisMargins (withoutPeripherals c) msin := rfl
    constructor
    · rw [calculateLayout_margin_top_of_vfree width height (withAllPeripherals c) msin hbp hv1,
        calculateLayout_margin_top_of_vfree width height (withoutPeripherals c) msin hbp hv0,
        preClampMargins_eq, preClampMargins_eq, hax]
      simp only [periTop, withAllPeripherals, withoutPeripherals]
      simp
      ring
    · rw [calculateLayout_margin_right_of_hfree width height (withAllPeripherals c) msin hbp hh1,
        calculateLayout_margin_right_of_hfree width height (withoutPeripherals c) msin hbp hh0,
        preClampMargins_eq, preClampMargins_eq, hax]
      simp only [periRight, withAllPeripherals, withoutPeripherals]
      simp
      ring



/-- Witness for C7 on an 800 by 400 viewport where no clamp triggers. -/
theorem C7_peripheral_additivity_witness :
    vClampFree 800 400 { cfgPlain with titleShow := true } sin0 ∧
    vClampFree 800 400 { cfgPlain with titleShow := false } sin0 ∧
    hClampFree 800 400 (withAllPeripherals cfgPlain) sin0 ∧
    vClampFree 800 400 (withAllPeripherals cfgPlain) sin0 ∧
    hClampFree 800 400 (withoutPeripherals cfgPlain) sin0 ∧
    vClampFree 800 400 (withoutPeripherals cfgPlain) sin0 ∧
    (calculateLayout 800 400 { cfgPlain with titleShow := true } sin0).margin.top =
      (calculateLayout 800 400 { cfgPlain with titleShow := false } sin0).margin.top + 30 ∧
    (calculateLayout 800 400 (withAllPeripherals cfgPlain) sin0).margin.right =
      (calculateLayout 800 400 (withoutPeripherals cfgPlain) sin0).margin.right + 300 := by
  have hpre1 : preClampMargins 800 400 { cfgPlain with titleShow := true } sin0 =
      { top := 60, right := 30, bottom := 60, left := 60 } := by
    simp +decide [preClampMargins_eq, periTop, periRight, periBottom, periLeft,
      axisMargins, axisBottomValue, axisBottomBase, cfgPlain, sin0]
    all_goals norm_num
  have hpre0 : preClampMargins 800 400 { cfgPlain with titleShow := false } sin0 =
      { top := 30, right := 30, bottom := 60, left := 60 } := by
    simp +decide [preClampMargins_eq, periTop, periRight, periBottom, periLeft,
      axisMargins, axisBottomValue, axisBottomBase, cfgPlain, sin0]
  have hpreAll : preClampMargins 800 400 (withAllPeripherals cfgPlain) sin0 =
      { top := 60, right := 330, bottom := 60, left := 60 } := by
    simp +decide [preClampMargins_eq, periTop, periRight, periBottom, periLeft,
      axisMargins, axisBottomValue, axisBottomBase, cfgPlain, sin0, withAllPeripherals]
    all_goals norm_num
  have hpreNone : preClampMargins 800 400 (withoutPeripherals cfgPlain) sin0 =
      { top := 30, right := 30, bottom := 60, left := 60 } := by
    simp +decide [preClampMargins_eq, periTop, periRight, periBottom, periLeft,
      axisMargins, axisBottomValue, axisBottomBase, cfgPlain, sin0, withoutPeripherals]
  have h := C7_peripheral_additivity 800 400 cfgPlain sin0 (by decide)
  have hv1 : vClampFree 800 400 { cfgPlain with titleShow := true } sin0 := by
    unfold vClampFree; rw [hpre1]; norm_num
  have hv0 : vClampFree 800 400 { cfgPlain with titleShow := false } sin0 := by
    unfold vClampFree; rw [hpre0]; norm_num
  have ha1 : hClampFree 800 400 (withAllPeripherals cfgPlain) sin0 := by
    unfold hClampFree; rw [hpreAll]; norm_num
  have hav1 : vClampFree 800 400 (withAllPeripherals cfgPlain) sin0 := by
    unfold vClampFree; rw [hpreAll]; norm_num
  have ha0 : hClampFree 800 400 (withoutPeripherals cfgPlain) sin0 := by
    unfold hClampFree; rw [hpreNone]; norm_num
  have hav0 : vClampFree 800 400 (withoutPeripherals cfgPlain) sin0 := by
    unfold vClampFree; rw [hpreNone]; norm_num
  exact ⟨hv1, hv0, ha1, hav1, ha0, hav0, h.1 hv1 hv0, (h.2.2.2 hav1 hav0 ha1 ha0).2⟩

lemma axisMargins_bottom_eq (c : LayoutConfig) (msin : ℚ → ℚ) :
    (axisMargins c msin).bottom =
      if c.breakpoint = "medium" then min (axisBottomValue c msin) 60
      else axisBottomValue c msin := by
  unfold axisMargins
  split <;> split <;> rfl

/-- C8 counterexample: with a left legend, the lollipop override yields
`margin.left = 80 + 100 = 180`, not 100; and on the medium breakpoint with
the default axis bottom of 60, the waterfall bottom margin is
`min(80, 60) = 60`, not strictly greater than the non-waterfall
`min(60, 60) = 60`. -/
theorem C8_counterexample :
    (calculateLayout 800 400
        { cfgPlain with legendShow := true, legendPosition := .left,
                        chartType := "lollipop" } sin0).margin.left ≠ 100 ∧
    ¬((calculateLayout 800 400
          { cfgPlain with chartType := "waterfall", breakpoint := "medium" } sin0).margin.bottom >
        (calculateLayout 800 400 { cfgPlain with breakpoint := "medium" } sin0).margin.bottom) := by
  have hpreL : preClampMargins 800 400
      { cfgPlain with legendShow := true, legendPosition := .left, chartType := "lollipop" } sin0 =
      { top := 30, right := 30, bottom := 60, left := 180 } := by
    simp +decide [preClampMargins_eq, periTop, periRight, periBottom, periLeft,
      axisMargins, axisBottomValue, axisBottomBase, cfgPlain, sin0]
    all_goals norm_num
  have hpreW : preClampMargins 800 400
      { cfgPlain with chartType := "waterfall", breakpoint := "medium" } sin0 =
      { top := 20, right := 30, bottom := 60, left := 50 } := by
    simp +decide [preClampMargins_eq, periTop, periRight, periBottom, periLeft,
      axisMargins, axisBottomValue, axisBottomBase, cfgPlain, sin0, min_def]
  have hpreV : preClampMargins 800 400 { cfgPlain with breakpoint := "medium" } sin0 =
      { top := 20, right := 30, bottom := 60, left := 50 } := by
    simp +decide [preClampMargins_eq, periTop, periRight, periBottom, periLeft,
      axisMargins, axisBottomValue, axisBottomBase, cfgPlain, sin0, min_def]
  constructor
  · rw [calculateLayout_margin_left_of_hfree 800 400 _ sin0 (by decide)
      (by unfold hClampFree; rw [hpreL]; norm_num), hpreL]
    norm_num
  · rw [calculateLayout_margin_bottom_of_vfree 800 400 _ sin0 (by decide)
      (by unfold vClampFree; rw [hpreW]; norm_num), hpreW,
      calculateLayout_margin_bottom_of_vfree 800 400 _ sin0 (by decide)
      (by unfold vClampFree; rw [hpreV]; norm_num), hpreV]
    norm_num

/-- C8 amended: for non-small breakpoints, the lollipop override forces the
axis-left component to 100 (also over the medium value), so when the
horizontal clamp is untriggered `margin.left` equals the peripheral left inset
(80 for a left legend, else 0) plus 100; and the waterfall chart type adds 20
to the axis bottom before the medium cap, so `margin.bottom` is strictly
greater than for an otherwise identical non-waterfall chart type whenever the
vertical clamp is untriggered in both and, on the medium breakpoint, the
uncapped axis bottom is below 60. -/
theorem C8_chart_type_overrides (width height : ℚ) (c : LayoutConfig) (msin : ℚ → ℚ)
    (hbp : c.breakpoint ≠ "small") :
    (c.chartType = "lollipop" → hClampFree width height c msin →
      (calculateLayout width height c msin).margin.left = periLeft c + 100) ∧
    (∀ t : String, t ≠ "waterfall" →
      vClampFree width height { c with chartType := "waterfall" } msin →
      vClampFree width height { c with chartType := t } msin →
      (c.breakpoint = "medium" → axisBottomBase c msin < 60) →
      (calculateLayout width height { c with chartType := t } msin).margin.bottom <
        (calculateLayout width height { c with chartType := "waterfall" } msin).margin.bottom) := by
  constructor
  · intro hlol hfree
    rw [calculateLayout_margin_left_of_hfree width height c msin hbp hfree,
      preClampMargins_eq]
    have : (axisMargins c msin).left = 100 := by
      unfold axisMargins
      rw [if_pos hlol]
    rw [this]
  · intro t ht hvw hvt hmed
    rw [calculateLayout_margin_bottom_of_vfree width height { c with chartType := t } msin hbp hvt,
      calculateLayout_margin_bottom_of_vfree width height { c with chartType := "waterfall" }
        msin hbp hvw,
      preClampMargins_eq, preClampMargins_eq]
    have hpb : periBottom { c with chartType := t } = periBottom { c with chartType := "waterfall" } := rfl
    have habt : axisBottomValue { c with chartType := t } msin = axisBottomBase c msin := by
      unfold axisBottomValue
      rw [if_neg ht, add_zero]
      rfl
    have habw : axisBottomValue { c with chartType := "waterfall" } msin =
        axisBottomBase c msin + 20 := by
      unfold axisBottomValue
      rw [if_pos rfl]
      rfl
    rw [axisMargins_bottom_eq, axisMargins_bottom_eq]
    simp only [habt, habw, hpb]
    by_cases hm : c.breakpoint = "medium"
    · rw [if_pos hm, if_pos hm]
      have hlt := hmed hm
      rw [min_eq_left (le_of_lt hlt)]
      have h1 : axisBottomBase c msin < min (axisBottomBase c msin + 20) 60 :=
        lt_min (by linarith) hlt
      linarith
    · rw [if_neg hm, if_neg hm]
      linarith

/-- Witness for C8: lollipop forces left margin 100 on an 800 by 400 viewport
without a left legend, and the waterfall bottom margin strictly exceeds the
variance one on the large breakpoint. -/
theorem C8_chart_type_overrides_witness :
    ({ cfgPlain with chartType := "lollipop" } : LayoutConfig).chartType = "lollipop" ∧
    hClampFree 800 400 { cfgPlain with chartType := "lollipop" } sin0 ∧
    (calculateLayout 800 400 { cfgPlain with chartType := "lollipop" } sin0).margin.left =
      periLeft { cfgPlain with chartType := "lollipop" } + 100 ∧
    vClampFree 800 400 { cfgPlain with chartType := "waterfall" } sin0 ∧
    vClampFree 800 400 { cfgPlain with chartType := "variance" } sin0 ∧
    (calculateLayout 800 400 { cfgPlain with chartType := "variance" } sin0).margin.bottom <
      (calculateLayout 800 400 { cfgPlain with chartType := "waterfall" } sin0).margin.bottom := by
  have hpreL : preClampMargins 800 400 { cfgPlain with chartType := "lollipop" } sin0 =
      { top := 30, right := 30, bottom := 60, left := 100 } := by
    simp +decide [preClampMargins_eq, periTop, periRight, periBottom, periLeft,
      axisMargins, axisBottomValue, axisBottomBase, cfgPlain, sin0]
  have hpreW : preClampMargins 800 400 { cfgPlain with chartType := "waterfall" } sin0 =
      { top := 30, right := 30, bottom := 80, left := 60 } := by
    simp +decide [preClampMargins_eq, periTop, periRight, periBottom, periLeft,
      axisMargins, axisBottomValue, axisBottomBase, cfgPlain, sin0]
    all_goals norm_num
  have hpreV : preClampMargins 800 400 { cfgPlain with chartType := "variance" } sin0 =
      { top := 30, right := 30, bottom := 60, left := 60 } := by
    simp +decide [preClampMargins_eq, periTop, periRight, periBottom, periLeft,
      axisMargins, axisBottomValue, axisBottomBase, cfgPlain, sin0]
  have hfL : hClampFree 800 400 { cfgPlain with chartType := "lollipop" } sin0 := by
    unfold hClampFree; rw [hpreL]; norm_num
  have hfW : vClampFree 800 400 { cfgPlain with chartType := "waterfall" } sin0 := by
    unfold vClampFree; rw [hpreW]; norm_num
  have hfV : vClampFree 800 400 { cfgPlain with chartType := "variance" } sin0 := by
    unfold vClampFree; rw [hpreV]; norm_num
  have h1 := C8_chart_type_overrides 800 400 { cfgPlain with chartType := "lollipop" } sin0
    (by decide)
  have h2 := C8_chart_type_overrides 800 400 cfgPlain sin0 (by decide)
  exact ⟨rfl, hfL, h1.1 rfl hfL, hfW, hfV,
    h2.2 "variance" (by decide) hfW hfV (fun hm => absurd hm (by decide))⟩

/-- C10: `applyTopN` is the identity when disabled or when at most `count`
rows exist; otherwise it keeps exactly `count` rows (plus one synthetic
"Others" row when `showOthers` is set), where the Others row aggregates the
dropped rows field-wise and has its variances recomputed from those sums, and
every field of the result other than `dataPoints` is unchanged. -/
theorem C10_apply_top_n (lc : String → String → ℚ) (data : ParsedData) (o : TopNOptions) :
    ((¬o.enable = true ∨ data.dataPoints.length ≤ o.count) → applyTopN lc data o = data) ∧
    (o.enable = true → o.count < data.dataPoints.length →
      (o.showOthers = false → (applyTopN lc data o).dataPoints.length = o.count) ∧
      (o.showOthers = true →
        ∃ others : DataPoint,
          (applyTopN lc data o).dataPoints =
            (sortedDataPoints lc data o).take o.count ++ [others] ∧
          (applyTopN lc data o).dataPoints.length = o.count + 1 ∧
          others.category = o.othersLabel ∧
          others.actual = (((sortedDataPoints lc data o).drop o.count).map DataPoint.actual).sum ∧
          others.budget = (((sortedDataPoints lc data o).drop o.count).map DataPoint.budget).sum ∧
          others.previousYear =
            (((sortedDataPoints lc data o).drop o.count).map DataPoint.previousYear).sum ∧
          others.forecast =
            (((sortedDataPoints lc data o).drop o.count).map DataPoint.forecast).sum ∧
          others.varianceToBudget = others.actual - others.budget ∧
          others.varianceToBudgetPct = calculatePercentage others.varianceToBudget others.budget ∧
          others.varianceToPY = others.actual - others.previousYear ∧
          others.varianceToPYPct = calculatePercentage others.varianceToPY others.previousYear ∧
          others.varianceToFC = others.actual - others.forecast ∧
          others.varianceToFCPct = calculatePercentage others.varianceToFC others.forecast) ∧
      (applyTopN lc data o).groups = data.groups ∧
      (applyTopN lc data o).hasActual = data.hasActual ∧
      (applyTopN lc data o).hasBudget = data.hasBudget ∧
      (applyTopN lc data o).hasPreviousYear = data.hasPreviousYear ∧
      (applyTopN lc data o).hasForecast = data.hasForecast ∧
      (applyTopN lc data o).hasGroups = data.hasGroups ∧
      (applyTopN lc data o).hasComments = data.hasComments ∧
      (applyTopN lc data o).totals = data.totals ∧
      (applyTopN lc data o).maxValue = data.maxValue ∧
      (applyTopN lc data o).minValue = data.minValue) := by
  constructor
  · intro h
    unfold applyTopN
    rw [if_pos h]
  · intro hen hcnt
    have hslen : (sortedDataPoints lc data o).length = data.dataPoints.length := by
      unfold sortedDataPoints
      simp
    have hcond : ¬(¬o.enable = true ∨ data.dataPoints.length ≤ o.count) := by
      rw [not_or, not_not, not_le]
      exact ⟨hen, hcnt⟩
    have hrest : 0 < ((sortedDataPoints lc data o).drop o.count).length := by
      rw [List.length_drop, hslen]
      omega
    have htake : ((sortedDataPoints lc data o).take o.count).length = o.count := by
      rw [List.length_take, hslen]
      omega
    have happ : applyTopN lc data o =
        if o.showOthers ∧ 0 < ((sortedDataPoints lc data o).drop o.count).length then
          { data with dataPoints := (sortedDataPoints lc data o).take o.count ++
              [othersPoint o ((sortedDataPoints lc data o).drop o.count)] }
        else { data with dataPoints := (sortedDataPoints lc data o).take o.count } := by
      unfold applyTopN
      rw [if_neg hcond]
    refine ⟨?_, ?_, ?_, ?_, ?_, ?_, ?_, ?_, ?_, ?_, ?_, ?_⟩
    · intro hso
      rw [happ, if_neg (by rw [hso]; simp)]
      exact htake
    · intro hso
      rw [happ, if_pos ⟨hso, hrest⟩]
      refine ⟨othersPoint o ((sortedDataPoints lc data o).drop o.count), rfl, ?_, rfl, rfl,
        rfl, rfl, rfl, rfl, rfl, rfl, rfl, rfl, rfl⟩
      simp only [List.length_append, List.length_cons, List.length_nil, htake]
    all_goals rw [happ]; split <;> rfl

/-- Witness for C10 on a three-row dataset keeping the top two rows. -/
theorem C10_apply_top_n_witness :
    sampleTopN.enable = true ∧
    sampleTopN.count < sampleParsedData.dataPoints.length ∧
    sampleTopN.showOthers = true ∧
    (applyTopN lc0 sampleParsedData sampleTopN).dataPoints.length = sampleTopN.count + 1 ∧
    (applyTopN lc0 sampleParsedData sampleTopN).totals = sampleParsedData.totals := by
  have h := (C10_apply_top_n lc0 sampleParsedData sampleTopN).2 rfl (by decide)
  obtain ⟨others, _, hlen, _⟩ := h.2.1 rfl
  exact ⟨rfl, by decide, rfl, hlen, h.2.2.2.2.2.2.2.2.2.1⟩
